import Mathlib

/-!
Verification of the Smart Terminal Assistant pipeline
(`AI_Terminal_Assistant/main.py`) and the task-prioritizer urgency formula
(`task_prioritizer/main.py`).

The Python code is shallowly embedded: Python strings are Lean `String`s,
the OpenAI chat-completion collaborator is an `Except String String`
parameter (error message, or the reply text of the model), the process
executor is an `ExecOutcome` parameter, and the interactive input stream
is a `List (Option String)` (`none` models `EOFError`/`KeyboardInterrupt`).
Python string primitives (`lower`, `upper`, `strip`, `split`, `replace`,
`in`) are re-implemented as structural recursions over `List Char` so that
every definition evaluates by kernel reduction.
-/

/-! ## Python string primitives -/

/-- `listIsPrefixOf pat l` decides whether `pat` is a prefix of `l`. -/
def listIsPrefixOf : List Char → List Char → Bool
  | [], _ => true
  | _ :: _, [] => false
  | a :: as, b :: bs => a = b && listIsPrefixOf as bs

/-- `listContainsSub pat l` decides whether `pat` occurs as a contiguous
sublist of `l` (Python's `pat in s` on strings). -/
def listContainsSub (pat : List Char) : List Char → Bool
  | [] => listIsPrefixOf pat []
  | c :: rest => listIsPrefixOf pat (c :: rest) || listContainsSub pat rest

/-- Python `pat in s` (substring containment). -/
def containsSubstr (s pat : String) : Bool :=
  listContainsSub pat.toList s.toList

/-- Python `s.startswith(pat)`. -/
def strStartsWith (s pat : String) : Bool :=
  listIsPrefixOf pat.toList s.toList

/-- Python `s.lower()` (ASCII case folding, which is all the source uses). -/
def strLower (s : String) : String :=
  String.mk (s.toList.map Char.toLower)

/-- Python `s.upper()` (ASCII case folding, which is all the source uses). -/
def strUpper (s : String) : String :=
  String.mk (s.toList.map Char.toUpper)

/-- Python `s.strip()`: drop whitespace from both ends. -/
def strTrim (s : String) : String :=
  String.mk
    (((s.toList.dropWhile Char.isWhitespace).reverse.dropWhile
        Char.isWhitespace).reverse)

/-- Python `s.split('\n', 1)`: the text before the first newline, and
(when a newline exists) the text after it. -/
def breakAtNewline : List Char → List Char × Option (List Char)
  | [] => ([], none)
  | c :: rest =>
    if c = '\n' then ([], some rest)
    else
      let r := breakAtNewline rest
      (c :: r.1, r.2)

/-! ## SafetyChecker (`main.py` lines 106-223) -/

/-- `SafetyStatus` (`main.py` lines 13-17). -/
inductive SafetyStatus where
  | SAFE
  | UNSAFE
  | UNKNOWN
deriving DecidableEq, Repr

/-- `SafetyChecker.DANGEROUS_PATTERNS` (`main.py` lines 110-138). -/
def DANGEROUS_PATTERNS : List String :=
  [ -- File deletion (Unix/Linux/Mac)
    "rm -rf", "rm -fr", "rm -r", "shred",
    -- File deletion (Windows)
    "rmdir /s", "del /s", "del /f", "rd /s", "remove-item -recurse", "format",
    -- Disk operations
    "mkfs", "dd if=", "fdisk", "parted", "diskpart",
    -- System control (Unix/Linux/Mac)
    "shutdown", "reboot", "init 0", "init 6", "poweroff", "halt",
    "systemctl stop", "systemctl disable",
    -- System control (Windows)
    "shutdown /s", "shutdown /r", "restart-computer", "stop-computer",
    -- Network/firewall (Unix/Linux/Mac)
    "iptables -F", "iptables -X", "firewall-cmd", "ufw disable",
    -- Network/firewall (Windows)
    "netsh advfirewall", "disable-netfirewallrule",
    -- Package management (Unix/Linux/Mac)
    "apt-get remove", "yum remove", "dnf remove", "brew uninstall",
    "pip uninstall", "npm uninstall -g",
    -- Permission changes (Unix/Linux/Mac)
    "chmod 777", "chown", "passwd", "useradd", "userdel",
    "sudo su", "su -",
    -- System file modification (Unix/Linux/Mac)
    "> /etc/", "> /sys/", "> /proc/", "> /dev/",
    -- System file modification (Windows)
    "> c:\\windows", "> c:\\system",
    -- Registry modification (Windows)
    "reg delete", "remove-item hklm:", "remove-item hkcu:" ]

/-- The deny-list pre-filter loop of `SafetyChecker.check_safety`
(`main.py` lines 154-160): the first dangerous pattern contained in the
lowered, stripped command, if any. -/
def findDangerousPattern (command_lower : String) : Option String :=
  DANGEROUS_PATTERNS.find? (fun pattern => containsSubstr command_lower pattern)

/-- `SafetyChecker.check_safety` (`main.py` lines 146-201).
`llmReply` is the classification collaborator: `Except.error e` models the
OpenAI call raising an exception, `Except.ok reply` models it returning
`reply` as the message content. -/
def check_safety (llmReply : Except String String) (command : String) :
    SafetyStatus × String :=
  let command_lower := strTrim (strLower command)
  match findDangerousPattern command_lower with
  | some pattern =>
      (SafetyStatus.UNSAFE,
        "⛔ BLOCKED: Command contains dangerous pattern '" ++ pattern ++
          "'. This could modify or delete system files.")
  | none =>
    match llmReply with
    | Except.error _ =>
        (SafetyStatus.UNKNOWN,
          "⚠️  CAUTION: Could not verify safety due to API error. Execution blocked by default.")
    | Except.ok reply =>
        let analysis := strTrim reply
        let parts := breakAtNewline analysis.toList
        let status_line := strUpper (String.mk parts.1)
        let explanation :=
          match parts.2 with
          | some rest => String.mk rest
          | none => "No explanation provided."
        if containsSubstr status_line "SAFE" &&
            !containsSubstr status_line "UNSAFE" then
          (SafetyStatus.SAFE, "✅ SAFE: " ++ explanation)
        else if containsSubstr status_line "UNSAFE" then
          (SafetyStatus.UNSAFE, "⛔ BLOCKED: " ++ explanation)
        else
          (SafetyStatus.UNKNOWN, "⚠️  CAUTION: " ++ explanation)

/-! ## CommandPlanner (`main.py` lines 30-103) -/

/-- One step of Python `s.replace(pat, "")` with explicit fuel (the scan
advances at least one character per step, so `s.length` fuel suffices for a
non-empty `pat`). -/
def removeAllAux (pat : List Char) : Nat → List Char → List Char
  | _, [] => []
  | 0, s => s
  | fuel + 1, c :: rest =>
    if listIsPrefixOf pat (c :: rest) then
      removeAllAux pat fuel (List.drop pat.length (c :: rest))
    else
      c :: removeAllAux pat fuel rest

/-- Python `s.replace(pat, "")`: delete every (leftmost, non-overlapping)
occurrence of `pat`. The source only ever replaces with the empty string. -/
def removeAll (s pat : String) : String :=
  String.mk (removeAllAux pat.toList s.toList.length s.toList)

/-- `CommandPlanner.plan_command` (`main.py` lines 40-72). `llmReply` is
the text-completion collaborator: `Except.error e` models the OpenAI call
raising an exception with text `e`, `Except.ok content` models it returning
`content` as the message content. The `user_input` only feeds the prompt
sent to the collaborator, which is outside the embedding. -/
def plan_command (llmReply : Except String String) (_user_input : String) :
    String :=
  match llmReply with
  | Except.ok content =>
      let command := strTrim content
      -- Clean up markdown if present (`main.py` line 66)
      let command :=
        removeAll (removeAll (removeAll (removeAll (removeAll command
          "```bash") "```sh") "```powershell") "```cmd") "```"
      strTrim command
  | Except.error e =>
      "echo 'Error: Could not plan command - " ++ e ++ "'"

/-! ## Coordinator (`main.py` lines 226-503) -/

/-- `CommandAnalysis` (`main.py` lines 20-27). -/
structure CommandAnalysis where
  original_request : String
  planned_command : String
  safety_status : SafetyStatus
  safety_message : String
  execution_output : String
deriving DecidableEq, Repr

/-- `SmartTerminalAssistant._get_user_confirmation` (`main.py` lines
284-310). The input stream is a list of prompt answers; `none` models
`EOFError`/`KeyboardInterrupt` (and an exhausted stream is treated the
same way, since `input()` can only fail once the stream ends). -/
def get_user_confirmation : List (Option String) → Bool
  | [] => false
  | none :: _ => false
  | some answer :: rest =>
      let response := strLower (strTrim answer)
      if response = "yes" || response = "y" then true
      else if response = "no" || response = "n" then false
      else get_user_confirmation rest

/-- Outcome of one call to the process-execution collaborator
(`subprocess.run` with a 10-second timeout, `main.py` lines 456-486):
a `TimeoutExpired`, some other exception with text `e`, or a completed
process with captured stdout, stderr and return code. -/
inductive ExecOutcome where
  | timeout
  | failure (e : String)
  | completed (stdout stderr : String) (returncode : Int)
deriving DecidableEq, Repr

/-- Python `s.split()` (split on whitespace runs, no empty fields),
accumulator form. -/
def wordsAux : List Char → List Char → List String
  | cur, [] => if cur.isEmpty then [] else [String.mk cur.reverse]
  | cur, c :: rest =>
    if c.isWhitespace then
      if cur.isEmpty then wordsAux [] rest
      else String.mk cur.reverse :: wordsAux [] rest
    else wordsAux (c :: cur) rest

/-- Python `s.split()`. -/
def pySplit (s : String) : List String :=
  wordsAux [] s.toList

/-- Python `s.split(maxsplit=1)`: at most one split, on the first
whitespace run. -/
def pySplitMax1 (s : String) : List String :=
  let l := s.toList.dropWhile Char.isWhitespace
  let tok := l.takeWhile (fun c => !c.isWhitespace)
  let rest := (l.dropWhile (fun c => !c.isWhitespace)).dropWhile
      Char.isWhitespace
  if tok.isEmpty then []
  else if rest.isEmpty then [String.mk tok]
  else [String.mk tok, String.mk rest]

/-- Python `s.split(sep)` for a single-character separator. -/
def splitOnChar (sep : Char) : List Char → List (List Char)
  | [] => [[]]
  | c :: rest =>
    let r := splitOnChar sep rest
    if c = sep then [] :: r
    else
      match r with
      | [] => [[c]]
      | h :: t => (c :: h) :: t

/-- The first segment of Python `s.split('&&')`: the text before the
first occurrence of `&&`. -/
def takeUntilSub (pat : List Char) : List Char → List Char
  | [] => []
  | c :: rest =>
    if listIsPrefixOf pat (c :: rest) then []
    else c :: takeUntilSub pat rest

/-- Python `s.strip('"\'')`: drop double- and single-quote characters from
both ends (`Char.ofNat 39` is the single quote). -/
def stripQuotes (s : String) : String :=
  let isQuote : Char → Bool := fun c => c = '"' || c = Char.ofNat 39
  String.mk (((s.toList.dropWhile isQuote).reverse.dropWhile isQuote).reverse)

/-- The `-Path`/`-Name` scan of `_extract_filename` (`main.py` lines
405-416): the quote-stripped token following the first token equal
(case-insensitively) to `flag`, when such a following token exists. -/
def findAfterFlag (flag : String) : List String → String
  | p :: q :: rest =>
      if strLower p = flag then stripQuotes q
      else findAfterFlag flag (q :: rest)
  | _ => ""

/-- `SmartTerminalAssistant._extract_filename` (`main.py` lines 380-448). -/
def extract_filename (command0 : String) : String :=
  let command := strTrim command0
  let command_lower := strLower command
  if strStartsWith command_lower "touch " then
    let parts := pySplit command
    if parts.length ≥ 2 then stripQuotes (parts.getD 1 "") else ""
  else if strStartsWith command_lower "mkdir " then
    let parts := pySplit command
    if parts.length ≥ 2 then
      match parts.tail.find? (fun part => !strStartsWith part "-") with
      | some part => stripQuotes part
      | none => ""
    else ""
  else if containsSubstr command_lower "new-item" then
    if containsSubstr command_lower "-path" then
      findAfterFlag "-path" (pySplit command)
    else if containsSubstr command_lower "-name" then
      findAfterFlag "-name" (pySplit command)
    else
      let parts := pySplit command
      if parts.length ≥ 2 then stripQuotes (parts.getD 1 "") else ""
  else if containsSubstr command ">" && containsSubstr command_lower "echo" then
    let parts := splitOnChar '>' command.toList
    if parts.length ≥ 2 then
      let filename := strTrim (String.mk (parts.getLastD []))
      let filename :=
        if containsSubstr filename "&&" then
          strTrim (String.mk (takeUntilSub "&&".toList filename.toList))
        else filename
      stripQuotes filename
    else ""
  else if containsSubstr command_lower "type nul" && containsSubstr command ">" then
    let parts := splitOnChar '>' command.toList
    if parts.length ≥ 2 then
      stripQuotes (strTrim (String.mk (parts.getLastD [])))
    else ""
  else if strStartsWith command_lower "md " || strStartsWith command_lower "mkdir " then
    let parts := pySplitMax1 command
    if parts.length ≥ 2 then stripQuotes (parts.getD 1 "") else ""
  else ""

/-- Unix file-creation keywords of `_enhance_command_output`
(`main.py` line 345). -/
def unix_keywords : List String := ["touch", "mkdir", "echo >", "cat >", "> "]

/-- Windows file-creation keywords of `_enhance_command_output`
(`main.py` line 347). -/
def windows_keywords : List String :=
  ["new-item", "ni ", "echo.>", "type nul >", "md ", "mkdir"]

/-- The `is_file_creation` test of `_enhance_command_output`
(`main.py` lines 352-355). -/
def is_file_creation (command : String) : Bool :=
  let command_lower := strLower command
  unix_keywords.any (fun keyword => containsSubstr command_lower keyword) ||
    windows_keywords.any (fun keyword => containsSubstr command_lower keyword)

/-- `os.path.normpath(os.path.join(cwd, filename))` for an absolute `cwd`
and a plain relative `filename`, the shapes the source produces on a POSIX
host: join with a single separator. -/
def joinPath (cwd filename : String) : String :=
  cwd ++ "/" ++ filename

/-- `SmartTerminalAssistant._enhance_command_output` (`main.py` lines
340-378). `cwd` is the current working directory reported by the host
(`_get_current_directory`, external state). -/
def enhance_command_output (cwd command output : String) : String :=
  if is_file_creation command then
    let filename := extract_filename command
    if output = "[Command executed successfully with no output]" then
      if filename ≠ "" then
        "✅ File/directory created successfully!\n📍 Location: " ++
          joinPath cwd filename
      else
        "✅ File/directory created successfully!\n📍 Location: " ++ cwd
    else
      output ++ "\n\n📍 Working Directory: " ++ cwd
  else output

/-- The stdout/stderr/marker assembly of `_execute_command`
(`main.py` lines 488-495): stderr is appended only when it is non-empty
after stripping and the return code is non-zero; blank output becomes the
fixed marker string. -/
def normalOutput (stdout stderr : String) (returncode : Int) : String :=
  let output := stdout
  let output :=
    if stderr ≠ "" then
      let stderrS := strTrim stderr
      if stderrS ≠ "" ∧ returncode ≠ 0 then
        output ++ "\n[stderr]: " ++ stderrS
      else output
    else output
  if strTrim output ≠ "" then output
  else "[Command executed successfully with no output]"

/-- `SmartTerminalAssistant._execute_command` (`main.py` lines 450-503).
The shell dispatch (PowerShell vs cmd vs bash) only selects which external
process collaborator runs; its outcome is the `outcome` parameter. -/
def execute_command (outcome : ExecOutcome) (cwd command : String) : String :=
  match outcome with
  | ExecOutcome.timeout => "[Error]: Command timed out after 10 seconds"
  | ExecOutcome.failure e => "[Error]: " ++ e
  | ExecOutcome.completed stdout stderr returncode =>
      enhance_command_output cwd command (normalOutput stdout stderr returncode)

/-- `SmartTerminalAssistant.process_request` (`main.py` lines 235-282).
Returns the `CommandAnalysis` together with a flag recording whether the
process-execution collaborator (`_execute_command`) was invoked.
`execution_enabled` is the instance attribute set to `True` in
`__init__` and never mutated. -/
def process_request (plannerReply safetyReply : Except String String)
    (confirmInputs : List (Option String)) (outcome : ExecOutcome)
    (cwd : String) (execution_enabled : Bool) (user_input : String)
    (interactive : Bool) : CommandAnalysis × Bool :=
  let planned_command := plan_command plannerReply user_input
  let sc := check_safety safetyReply planned_command
  let eo : String × Bool :=
    match sc.1 with
    | SafetyStatus.UNSAFE => ("", false)
    | SafetyStatus.UNKNOWN => ("", false)
    | SafetyStatus.SAFE =>
      if execution_enabled then
        if interactive then
          if get_user_confirmation confirmInputs then
            (execute_command outcome cwd planned_command, true)
          else ("[Execution cancelled by user]", false)
        else (execute_command outcome cwd planned_command, true)
      else ("", false)
  (⟨user_input, planned_command, sc.1, sc.2, eo.1⟩, eo.2)

/-! ## Allow-list (spec §4.2 step 3) -/

/-- Modelled from the spec: the fixed allow-list of read-only command
names ("listing, printing working directory, process inspection, echoing,
etc.") that spec §4.2 step 3 attributes to the SafetyChecker. No such
allow-list exists anywhere in `src/AI_Terminal_Assistant/main.py`; this
definition exists only to state the allow-list claim. -/
def ALLOWED_COMMANDS : List String :=
  ["ls", "dir", "pwd", "ps", "top", "echo", "whoami", "date", "df", "cat"]

/-- The first whitespace-delimited token of a command. -/
def firstToken (command : String) : String :=
  (pySplit command).headD ""

/-! ## Task prioritizer (`task_prioritizer/main.py` lines 64-79) -/

/-- `ContextCollectorAgent._days_remaining` (`task_prioritizer/main.py`
lines 75-79): `delta.days + delta.seconds / 86400` for the normalized
Python `timedelta` `deadline - current_time`, given by its `days`
(possibly negative) and `seconds` (in `[0, 86400)`) fields. -/
def daysRemaining (deltaDays : ℤ) (deltaSeconds : ℕ) : ℚ :=
  (deltaDays : ℚ) + (deltaSeconds : ℚ) / 86400

/-- The piecewise body of `ContextCollectorAgent._calculate_urgency`
(`task_prioritizer/main.py` lines 64-73) as a function of the
days-remaining value. -/
def urgencyOfDays (days : ℚ) : ℚ :=
  if days < 0 then 100        -- Overdue
  else if days = 0 then 95    -- Due today
  else max 10 (100 / (days + 1))

/-- `ContextCollectorAgent._calculate_urgency` (`task_prioritizer/main.py`
lines 64-73), as a function of the task's deadline delta. -/
def calculate_urgency (deltaDays : ℤ) (deltaSeconds : ℕ) : ℚ :=
  urgencyOfDays (daysRemaining deltaDays deltaSeconds)

/-- The upper-cased first line of the (stripped) collaborator reply — the
`status_line` of `check_safety` (`main.py` lines 185-186). -/
def statusLineOf (reply : String) : String :=
  strUpper (String.mk (breakAtNewline (strTrim reply).toList).1)


/-! ## Helper lemmas -/

theorem strToList_append (a b : String) :
    (a ++ b).toList = a.toList ++ b.toList :=
  String.data_append a b

theorem listIsPrefixOf_self_append (l t : List Char) :
    listIsPrefixOf l (l ++ t) = true := by
  induction l with
  | nil => simp [listIsPrefixOf]
  | cons c rest ih => simp [listIsPrefixOf, ih]

theorem listIsPrefixOf_append_right (p l t : List Char)
    (h : listIsPrefixOf p l = true) : listIsPrefixOf p (l ++ t) = true := by
  induction p generalizing l with
  | nil => simp [listIsPrefixOf]
  | cons c rest ih =>
    cases l with
    | nil => simp [listIsPrefixOf] at h
    | cons d ds =>
      simp only [listIsPrefixOf, Bool.and_eq_true, decide_eq_true_eq] at h ⊢
      exact ⟨h.1, ih ds h.2⟩

theorem listContainsSub_middle (u p v : List Char) :
    listContainsSub p (u ++ p ++ v) = true := by
  induction u with
  | nil =>
    cases p with
    | nil =>
      cases v with
      | nil => decide
      | cons c cs => simp [listContainsSub, listIsPrefixOf]
    | cons c cs =>
      simp only [List.nil_append, List.cons_append, listContainsSub,
        Bool.or_eq_true]
      exact Or.inl (by
        have := listIsPrefixOf_self_append (c :: cs) v
        simpa using this)
  | cons c u ih =>
    simp only [List.cons_append, listContainsSub, Bool.or_eq_true]
    exact Or.inr (by simpa using ih)

theorem containsSubstr_middle (a p b : String) :
    containsSubstr (a ++ p ++ b) p = true := by
  unfold containsSubstr
  rw [strToList_append, strToList_append]
  exact listContainsSub_middle a.toList p.toList b.toList

theorem string_toList_eq_nil (s : String) (h : s.toList = []) : s = "" := by
  cases s with
  | mk data => cases data with
    | nil => rfl
    | cons c cs => simp [String.toList] at h

theorem append_ne_empty_left (a b : String) (h : a ≠ "") : a ++ b ≠ "" := by
  intro hc
  apply h
  have h2 : a.toList ++ b.toList = [] := by
    have h3 := congrArg String.toList hc
    rw [strToList_append] at h3
    exact h3
  exact string_toList_eq_nil a (List.append_eq_nil.mp h2).1

theorem parse_branch (a b : Bool) (x y z : SafetyStatus × String) :
    (if a && !b then x else if b then y else z).1 =
      (if b then y.1 else if a then x.1 else z.1) := by
  cases a <;> cases b <;> simp

theorem check_safety_ok_fst (command reply : String)
    (h : findDangerousPattern (strTrim (strLower command)) = none) :
    (check_safety (Except.ok reply) command).1 =
      (if containsSubstr (statusLineOf reply) "UNSAFE" then SafetyStatus.UNSAFE
       else if containsSubstr (statusLineOf reply) "SAFE" then SafetyStatus.SAFE
       else SafetyStatus.UNKNOWN) := by
  simp only [check_safety, h, statusLineOf, String.toList]
  exact parse_branch _ _ _ _ _

theorem get_user_confirmation_true_mem :
    ∀ l : List (Option String), get_user_confirmation l = true →
      ∃ s, some s ∈ l ∧
        (strLower (strTrim s) = "yes" ∨ strLower (strTrim s) = "y") := by
  intro l
  induction l with
  | nil => intro h; simp [get_user_confirmation] at h
  | cons a rest ih =>
    intro h
    cases a with
    | none => simp [get_user_confirmation] at h
    | some s =>
      by_cases hyes : strLower (strTrim s) = "yes" ∨ strLower (strTrim s) = "y"
      · exact ⟨s, List.mem_cons_self _ _, hyes⟩
      · push_neg at hyes
        by_cases hno : strLower (strTrim s) = "no" ∨ strLower (strTrim s) = "n"
        · exfalso
          rcases hno with hno | hno <;>
            simp [get_user_confirmation, hno, hyes.1, hyes.2] at h
        · push_neg at hno
          have hrec : get_user_confirmation rest = true := by
            simpa [get_user_confirmation, hyes.1, hyes.2, hno.1, hno.2] using h
          obtain ⟨s', hmem, hval⟩ := ih hrec
          exact ⟨s', List.mem_cons_of_mem _ hmem, hval⟩

/-! ## Claim theorems -/

/-- C2: for every command containing a deny-list pattern after
lower-casing and trimming, `check_safety` returns the UNSAFE verdict with
an explanation naming the matched pattern, and the result does not depend
on the classification collaborator at all. -/
theorem C2_deny_list_blocks (command pattern : String)
    (r : Except String String)
    (hmem : pattern ∈ DANGEROUS_PATTERNS)
    (hsub : containsSubstr (strTrim (strLower command)) pattern = true) :
    (check_safety r command).1 = SafetyStatus.UNSAFE ∧
    (∃ p, p ∈ DANGEROUS_PATTERNS ∧
       containsSubstr (strTrim (strLower command)) p = true ∧
       containsSubstr (check_safety r command).2 p = true) ∧
    (∀ r' : Except String String,
       check_safety r' command = check_safety r command) := by
  have hsome : (findDangerousPattern (strTrim (strLower command))).isSome := by
    unfold findDangerousPattern
    exact List.find?_isSome.mpr ⟨pattern, hmem, hsub⟩
  obtain ⟨p, hp⟩ := Option.isSome_iff_exists.mp hsome
  have hp' : DANGEROUS_PATTERNS.find?
      (fun q => containsSubstr (strTrim (strLower command)) q) = some p := hp
  have hpmem : p ∈ DANGEROUS_PATTERNS := List.mem_of_find?_eq_some hp'
  have hpsub : containsSubstr (strTrim (strLower command)) p = true :=
    List.find?_some hp'
  refine ⟨?_, ⟨p, hpmem, hpsub, ?_⟩, ?_⟩
  · simp [check_safety, hp]
  · have hmsg : (check_safety r command).2 =
        "⛔ BLOCKED: Command contains dangerous pattern '" ++ p ++
          "'. This could modify or delete system files." := by
      simp [check_safety, hp]
    rw [hmsg]
    exact containsSubstr_middle _ p _
  · intro r'
    simp [check_safety, hp]

/-- C2 witness: `"  RM -RF /tmp "` lower-cases and trims to a string
containing the deny-list pattern `"rm -rf"`, so the checker blocks it even
though the collaborator call would fail. -/
theorem C2_witness :
    "rm -rf" ∈ DANGEROUS_PATTERNS ∧
    containsSubstr (strTrim (strLower "  RM -RF /tmp ")) "rm -rf" = true ∧
    (check_safety (Except.error "api down") "  RM -RF /tmp ").1 =
      SafetyStatus.UNSAFE :=
  ⟨by decide, by decide,
    (C2_deny_list_blocks "  RM -RF /tmp " "rm -rf" (Except.error "api down")
      (by decide) (by decide)).1⟩

/-- C3: neither failure nor ambiguity in the safety check ever produces
the SAFE verdict. When the classification collaborator call fails,
`check_safety` never returns SAFE, and if no deny-list pattern matched
the verdict is UNKNOWN with the fixed "blocked by default" explanation;
when the collaborator succeeds but its reply is ambiguous (the
upper-cased first line contains neither the token SAFE nor UNSAFE), the
verdict is likewise never SAFE, and is UNKNOWN on a deny-free command. -/
theorem C3_fails_closed (command e : String) :
    (check_safety (Except.error e) command).1 ≠ SafetyStatus.SAFE ∧
    (findDangerousPattern (strTrim (strLower command)) = none →
       check_safety (Except.error e) command =
         (SafetyStatus.UNKNOWN,
          "⚠️  CAUTION: Could not verify safety due to API error. Execution blocked by default.") ∧
       containsSubstr (check_safety (Except.error e) command).2
         "blocked by default" = true) ∧
    (∀ reply : String,
       containsSubstr (statusLineOf reply) "SAFE" = false →
       containsSubstr (statusLineOf reply) "UNSAFE" = false →
       (check_safety (Except.ok reply) command).1 ≠ SafetyStatus.SAFE) ∧
    (∀ reply : String,
       findDangerousPattern (strTrim (strLower command)) = none →
       containsSubstr (statusLineOf reply) "SAFE" = false →
       containsSubstr (statusLineOf reply) "UNSAFE" = false →
       (check_safety (Except.ok reply) command).1 = SafetyStatus.UNKNOWN) := by
  refine ⟨?_, ?_, ?_, ?_⟩
  · rcases hf : findDangerousPattern (strTrim (strLower command)) with _ | p
    · simp [check_safety, hf]
    · simp [check_safety, hf]
  · intro hf
    have heq : check_safety (Except.error e) command =
        (SafetyStatus.UNKNOWN,
         "⚠️  CAUTION: Could not verify safety due to API error. Execution blocked by default.") := by
      simp [check_safety, hf]
    refine ⟨heq, ?_⟩
    rw [heq]
    decide
  · intro reply hS hU
    rcases hf : findDangerousPattern (strTrim (strLower command)) with _ | p
    · rw [check_safety_ok_fst command reply hf]
      simp [hS, hU]
    · simp [check_safety, hf]
  · intro reply hf hS hU
    rw [check_safety_ok_fst command reply hf]
    simp [hS, hU]

/-- C3 witness: for the clean command `"ls"`, a failing collaborator
returns UNKNOWN with the blocked-by-default message, and an ambiguous
reply with neither token on its first line also returns UNKNOWN. -/
theorem C3_witness :
    findDangerousPattern (strTrim (strLower "ls")) = none ∧
    check_safety (Except.error "connection reset") "ls" =
      (SafetyStatus.UNKNOWN,
       "⚠️  CAUTION: Could not verify safety due to API error. Execution blocked by default.") ∧
    (check_safety (Except.ok "I cannot determine this\nNo verdict given.")
        "ls").1 = SafetyStatus.UNKNOWN :=
  ⟨by decide,
    ((C3_fails_closed "ls" "connection reset").2.1 (by decide)).1,
    (C3_fails_closed "ls" "connection reset").2.2.2
      "I cannot determine this\nNo verdict given." (by decide) (by decide)
      (by decide)⟩

/-- C6: when the deny-list pre-filter passes, the verdict is decided by
the upper-cased first line of the collaborator's reply: UNSAFE if it
contains "UNSAFE" (taking precedence over "SAFE", which is a substring of
"UNSAFE"), else SAFE if it contains "SAFE", else UNKNOWN. -/
theorem C6_reply_parsing (command reply : String)
    (h : findDangerousPattern (strTrim (strLower command)) = none) :
    (check_safety (Except.ok reply) command).1 =
      (if containsSubstr (statusLineOf reply) "UNSAFE" then SafetyStatus.UNSAFE
       else if containsSubstr (statusLineOf reply) "SAFE" then SafetyStatus.SAFE
       else SafetyStatus.UNKNOWN) :=
  check_safety_ok_fst command reply h

/-- C6 witness: a lower-case reply whose first line contains both "safe"
and "unsafe" parses to UNSAFE (precedence, case-insensitivity). -/
theorem C6_witness :
    findDangerousPattern (strTrim (strLower "ls")) = none ∧
    (check_safety (Except.ok "unsafe (so not safe)\nit deletes data") "ls").1 =
      SafetyStatus.UNSAFE := by
  refine ⟨by decide, ?_⟩
  rw [C6_reply_parsing "ls" "unsafe (so not safe)\nit deletes data" (by decide)]
  decide

/-- C7: a failing text-completion collaborator makes `plan_command`
return a diagnostic echo command embedding the error text; no exception
crosses the planner boundary (the model is a total function). -/
theorem C7_planner_fail_safe (user_input e : String) :
    plan_command (Except.error e) user_input =
      "echo 'Error: Could not plan command - " ++ e ++ "'" ∧
    strStartsWith (plan_command (Except.error e) user_input) "echo " = true ∧
    containsSubstr (plan_command (Except.error e) user_input) e = true := by
  refine ⟨rfl, ?_, ?_⟩
  · show strStartsWith
      ("echo 'Error: Could not plan command - " ++ e ++ "'") "echo " = true
    unfold strStartsWith
    rw [strToList_append, strToList_append]
    apply listIsPrefixOf_append_right
    apply listIsPrefixOf_append_right
    decide
  · exact containsSubstr_middle "echo 'Error: Could not plan command - " e "'"

/-- C9: for every command and every collaborator behavior the verdict is
one of the three `SafetyStatus` values and the explanation is non-empty. -/
theorem C9_verdict_wellformed (r : Except String String) (command : String) :
    ((check_safety r command).1 = SafetyStatus.SAFE ∨
     (check_safety r command).1 = SafetyStatus.UNSAFE ∨
     (check_safety r command).1 = SafetyStatus.UNKNOWN) ∧
    (check_safety r command).2 ≠ "" := by
  constructor
  · cases h : (check_safety r command).1 <;> simp
  · rcases hf : findDangerousPattern (strTrim (strLower command)) with _ | p
    · cases r with
      | error e =>
        have heq : (check_safety (Except.error e) command).2 =
            "⚠️  CAUTION: Could not verify safety due to API error. Execution blocked by default." := by
          simp [check_safety, hf]
        rw [heq]; decide
      | ok reply =>
        simp only [check_safety, hf]
        split
        · exact append_ne_empty_left _ _ (by decide)
        · split
          · exact append_ne_empty_left _ _ (by decide)
          · exact append_ne_empty_left _ _ (by decide)
    · have heq : (check_safety r command).2 =
          "⛔ BLOCKED: Command contains dangerous pattern '" ++ p ++
            "'. This could modify or delete system files." := by
        simp [check_safety, hf]
      rw [heq]
      exact append_ne_empty_left _ _
        (append_ne_empty_left _ _ (by decide))

theorem get_user_confirmation_cons (s : String) (rest : List (Option String)) :
    get_user_confirmation (some s :: rest) =
      (if strLower (strTrim s) = "yes" || strLower (strTrim s) = "y" then true
       else if strLower (strTrim s) = "no" || strLower (strTrim s) = "n" then
         false
       else get_user_confirmation rest) := rfl

/-- C1: `process_request` invokes the process-execution collaborator only
when the safety verdict is SAFE; on UNSAFE or UNKNOWN nothing is executed
and no execution output is captured. -/
theorem C1_executed_implies_safe (pr sr : Except String String)
    (ci : List (Option String)) (oc : ExecOutcome) (cwd : String)
    (ee : Bool) (ui : String) (interactive : Bool) :
    ((process_request pr sr ci oc cwd ee ui interactive).2 = true →
       (process_request pr sr ci oc cwd ee ui interactive).1.safety_status =
         SafetyStatus.SAFE) ∧
    ((process_request pr sr ci oc cwd ee ui interactive).1.safety_status ≠
         SafetyStatus.SAFE →
       (process_request pr sr ci oc cwd ee ui interactive).2 = false ∧
       (process_request pr sr ci oc cwd ee ui
           interactive).1.execution_output = "") := by
  rcases hs : (check_safety sr (plan_command pr ui)).1 with _ | _ | _ <;>
    simp [process_request, hs]

/-- C1 witness: a SAFE verdict in non-interactive mode executes, and the
reported verdict is SAFE. -/
theorem C1_witness :
    (process_request (Except.ok "ls") (Except.ok "SAFE\nread-only listing")
        [] (ExecOutcome.completed "files" "" 0) "/home" true
        "list my files" false).2 = true ∧
    (process_request (Except.ok "ls") (Except.ok "SAFE\nread-only listing")
        [] (ExecOutcome.completed "files" "" 0) "/home" true
        "list my files" false).1.safety_status = SafetyStatus.SAFE :=
  ⟨by decide,
    (C1_executed_implies_safe (Except.ok "ls")
      (Except.ok "SAFE\nread-only listing") []
      (ExecOutcome.completed "files" "" 0) "/home" true
      "list my files" false).1 (by decide)⟩

/-- C4: in interactive mode execution happens only after the confirmation
prompt answers affirmatively; the prompt accepts exactly yes/y and no/n
(case-insensitively, after trimming), re-prompts on anything else, and
answers negatively on end-of-input or interrupt. -/
theorem C4_confirmation_gate (pr sr : Except String String)
    (ci : List (Option String)) (oc : ExecOutcome) (cwd : String)
    (ee : Bool) (ui : String) :
    ((process_request pr sr ci oc cwd ee ui true).2 = true →
       get_user_confirmation ci = true ∧
       ∃ s, some s ∈ ci ∧
         (strLower (strTrim s) = "yes" ∨ strLower (strTrim s) = "y")) ∧
    (∀ (s : String) (rest : List (Option String)),
       (strLower (strTrim s) = "yes" ∨ strLower (strTrim s) = "y") →
       get_user_confirmation (some s :: rest) = true) ∧
    (∀ (s : String) (rest : List (Option String)),
       (strLower (strTrim s) = "no" ∨ strLower (strTrim s) = "n") →
       get_user_confirmation (some s :: rest) = false) ∧
    (∀ (s : String) (rest : List (Option String)),
       strLower (strTrim s) ≠ "yes" → strLower (strTrim s) ≠ "y" →
       strLower (strTrim s) ≠ "no" → strLower (strTrim s) ≠ "n" →
       get_user_confirmation (some s :: rest) = get_user_confirmation rest) ∧
    (∀ rest : List (Option String),
       get_user_confirmation (none :: rest) = false) ∧
    get_user_confirmation [] = false := by
  refine ⟨?_, ?_, ?_, ?_, fun rest => rfl, rfl⟩
  · intro hexec
    have hconf : get_user_confirmation ci = true := by
      rcases hs : (check_safety sr (plan_command pr ui)).1 with _ | _ | _
      · by_cases hee : ee
        · by_cases hc : get_user_confirmation ci = true
          · exact hc
          · exfalso
            simp [process_request, hs, hee, hc] at hexec
        · exfalso
          simp [process_request, hs, hee] at hexec
      · exfalso; simp [process_request, hs] at hexec
      · exfalso; simp [process_request, hs] at hexec
    exact ⟨hconf, get_user_confirmation_true_mem ci hconf⟩
  · rintro s rest (h | h) <;> rw [get_user_confirmation_cons, h] <;> simp
  · rintro s rest (h | h) <;> rw [get_user_confirmation_cons, h] <;> simp
  · intro s rest h1 h2 h3 h4
    rw [get_user_confirmation_cons]
    simp [h1, h2, h3, h4]

/-- C4 witness: an interactive run that executed did confirm, on the
affirmative answer `" YES "`. -/
theorem C4_witness :
    (process_request (Except.ok "ls") (Except.ok "SAFE\nread-only listing")
        [some "maybe?", some " YES "] (ExecOutcome.completed "files" "" 0)
        "/home" true "list my files" true).2 = true ∧
    get_user_confirmation [some "maybe?", some " YES "] = true :=
  ⟨by decide,
    ((C4_confirmation_gate (Except.ok "ls")
      (Except.ok "SAFE\nread-only listing")
      [some "maybe?", some " YES "] (ExecOutcome.completed "files" "" 0)
      "/home" true "list my files").1 (by decide)).1⟩

/-- C5 counterexample: `"ls"` has its first token in the (spec-modelled)
allow-list and contains no deny-list pattern, yet `check_safety` does not
return SAFE when the classification collaborator answers UNSAFE — the
source has no allow-list short-circuit. -/
theorem C5_counterexample :
    firstToken "ls" ∈ ALLOWED_COMMANDS ∧
    findDangerousPattern (strTrim (strLower "ls")) = none ∧
    (check_safety (Except.ok "UNSAFE\nCould be used to probe the system.")
        "ls").1 ≠ SafetyStatus.SAFE :=
  ⟨by decide, by decide, by decide⟩

/-- C5 (amended): for a command whose first token is allow-listed and
which contains no deny-list pattern, the verdict is not unconditionally
SAFE; it is SAFE exactly when the classification collaborator succeeds
and the upper-cased first line of its reply contains "SAFE" but not
"UNSAFE", and it is never SAFE when the collaborator fails. -/
theorem C5_allow_list_amended (command reply : String)
    (_hallow : firstToken command ∈ ALLOWED_COMMANDS)
    (hdeny : findDangerousPattern (strTrim (strLower command)) = none) :
    ((check_safety (Except.ok reply) command).1 = SafetyStatus.SAFE ↔
       (containsSubstr (statusLineOf reply) "SAFE" = true ∧
        containsSubstr (statusLineOf reply) "UNSAFE" = false)) ∧
    (∀ e, (check_safety (Except.error e) command).1 ≠ SafetyStatus.SAFE) := by
  constructor
  · rw [check_safety_ok_fst command reply hdeny]
    cases hA : containsSubstr (statusLineOf reply) "SAFE" <;>
      cases hB : containsSubstr (statusLineOf reply) "UNSAFE" <;>
      simp [hA, hB]
  · intro e
    simp [check_safety, hdeny]

/-- C5 witness: `"ls"` is allow-listed, deny-free, and classified SAFE
when the collaborator replies SAFE. -/
theorem C5_witness :
    firstToken "ls" ∈ ALLOWED_COMMANDS ∧
    (check_safety (Except.ok "SAFE\nread-only listing") "ls").1 =
      SafetyStatus.SAFE :=
  ⟨by decide,
    ((C5_allow_list_amended "ls" "SAFE\nread-only listing" (by decide)
      (by decide)).1).mpr ⟨by decide, by decide⟩⟩

/-- C8 counterexample: for the file-creation command `touch test.txt`
completing normally with empty output, `_execute_command` does not return
the fixed no-output marker — the output-enhancement step replaces it with
a created-location message. -/
theorem C8_counterexample :
    execute_command (ExecOutcome.completed "" "" 0) "/home/user"
        "touch test.txt" ≠ "[Command executed successfully with no output]" ∧
    execute_command (ExecOutcome.completed "" "" 0) "/home/user"
        "touch test.txt" =
      "✅ File/directory created successfully!\n📍 Location: /home/user/test.txt" :=
  ⟨by decide, by decide⟩

/-- C8 (amended): `execute_command` is total; a timeout yields the fixed
timed-out diagnostic, any other failure yields a diagnostic carrying the
error text, and normal completion yields captured stdout (stderr appended
only when the exit status is non-zero and stripped stderr is non-empty;
blank output replaced by the no-output marker) — except that this normal
result is additionally passed through the file-creation output
enhancement, and is returned unchanged exactly when the command matches
no file-creation keyword. -/
theorem C8_execute_amended (cwd command stdout stderr e : String)
    (rc : Int) :
    execute_command ExecOutcome.timeout cwd command =
      "[Error]: Command timed out after 10 seconds" ∧
    execute_command (ExecOutcome.failure e) cwd command = "[Error]: " ++ e ∧
    execute_command (ExecOutcome.completed stdout stderr rc) cwd command =
      enhance_command_output cwd command (normalOutput stdout stderr rc) ∧
    (is_file_creation command = false →
       execute_command (ExecOutcome.completed stdout stderr rc) cwd command =
         normalOutput stdout stderr rc) ∧
    ((rc = 0 ∨ strTrim stderr = "") →
       normalOutput stdout stderr rc =
         (if strTrim stdout ≠ "" then stdout
          else "[Command executed successfully with no output]")) := by
  refine ⟨rfl, rfl, rfl, ?_, ?_⟩
  · intro hnc
    show enhance_command_output cwd command (normalOutput stdout stderr rc) =
      normalOutput stdout stderr rc
    simp [enhance_command_output, hnc]
  · intro h
    unfold normalOutput
    rcases h with h | h
    · by_cases hs : stderr = "" <;> simp [hs, h]
    · by_cases hs : stderr = "" <;> simp [hs, h]

/-- C8 witness: a non-file-creation command with non-empty stdout returns
that stdout unchanged. -/
theorem C8_witness :
    is_file_creation "ps aux" = false ∧
    execute_command (ExecOutcome.completed "PID TTY\n" "" 0) "/home"
      "ps aux" = "PID TTY\n" := by
  refine ⟨by decide, ?_⟩
  have h := (C8_execute_amended "/home" "ps aux" "PID TTY\n" "" "err" 0).2.2.2.1
    (by decide)
  rw [h]
  decide

/-- C10 counterexample: no linear function of the days-remaining value
matches the urgency score — the values at 0, 1 and 3 days
(95, 50 and 25) do not lie on one line. -/
theorem C10_counterexample :
    ¬ ∃ a b : ℚ, ∀ (deltaDays : ℤ) (deltaSeconds : ℕ),
        deltaSeconds < 86400 →
        calculate_urgency deltaDays deltaSeconds =
          a * daysRemaining deltaDays deltaSeconds + b := by
  rintro ⟨a, b, h⟩
  have h0 := h 0 0 (by norm_num)
  have h1 := h 1 0 (by norm_num)
  have h3 := h 3 0 (by norm_num)
  norm_num [calculate_urgency, daysRemaining, urgencyOfDays, max_def]
    at h0 h1 h3
  linarith

/-- C10 (amended): the urgency score is a piecewise reciprocal — not
linear — function of days remaining (100 when overdue, 95 when due today,
otherwise `max 10 (100 / (days + 1))`); it always lies in `[10, 100]` and
is non-increasing over positive days remaining. -/
theorem C10_urgency_amended :
    (∀ (deltaDays : ℤ) (deltaSeconds : ℕ), deltaSeconds < 86400 →
       10 ≤ calculate_urgency deltaDays deltaSeconds ∧
       calculate_urgency deltaDays deltaSeconds ≤ 100) ∧
    (∀ d₁ d₂ : ℚ, 0 < d₁ → d₁ ≤ d₂ →
       urgencyOfDays d₂ ≤ urgencyOfDays d₁) := by
  constructor
  · intro dd ds _
    unfold calculate_urgency urgencyOfDays
    set d := daysRemaining dd ds with hd
    by_cases h1 : d < 0
    · simp only [h1, if_true]
      norm_num
    · by_cases h2 : d = 0
      · simp only [h1, h2, if_false, if_pos]
        norm_num
      · have hpos : 0 < d := lt_of_le_of_ne (not_lt.mp h1) (Ne.symm h2)
        simp only [h1, h2, if_false]
        constructor
        · exact le_max_left 10 _
        · apply max_le (by norm_num)
          exact le_trans (div_le_self (by norm_num) (by linarith)) (by norm_num)
  · intro d₁ d₂ h1 h12
    have h2 : 0 < d₂ := lt_of_lt_of_le h1 h12
    unfold urgencyOfDays
    rw [if_neg (not_lt.mpr (le_of_lt h1)), if_neg (ne_of_gt h1),
      if_neg (not_lt.mpr (le_of_lt h2)), if_neg (ne_of_gt h2)]
    apply max_le_max (le_refl 10)
    exact div_le_div_of_nonneg_left (by norm_num) (by linarith) (by linarith)

/-- C10 witness: a task due in exactly one day has urgency 50, inside
`[10, 100]`, and urgency at 3 days does not exceed urgency at 1 day. -/
theorem C10_witness :
    (0 : ℕ) < 86400 ∧ 10 ≤ calculate_urgency 1 0 ∧
    urgencyOfDays 3 ≤ urgencyOfDays 1 :=
  ⟨by norm_num, (C10_urgency_amended.1 1 0 (by norm_num)).1,
    C10_urgency_amended.2 1 3 (by norm_num) (by norm_num)⟩
